import Mathlib

/-!
Shallow embedding of the report-assembly pipeline of the e-commerce
analytics repository (`src/reports/report_generator.py`), together with
theorems settling the specification claims about it.

Modelling conventions:
* A pandas row of the loaded CSV becomes an `OrderRecord`; its decimal
  numeric fields (order value, delivery time) are carried as exact integer
  counts of hundredths, so machine floats holding decimal data become
  exact integers.
* pandas `groupby('Platform')` (default `sort=True`) groups by platform in
  lexicographic key order; `.agg` means followed by `.round(2)` keep whole
  hundredths, computed exactly by `roundedMeanCents` (decimal half-up
  rounding stands in for float rounding — no claim depends on a tie).
* `.loc[platform]` on the mixed-dtype `platform_stats` frame upcasts the
  integer count column to float, so every cell is rendered through Python
  `str()` of a float; `strFloatOfCents` reproduces that rendering for
  values that are whole hundredths.
* The filesystem is an association list from structured paths (`FPath`,
  distinguishing the `output/temp` and `output/reports` directories, which
  share no concrete path) to file contents; `open(..., 'w')` semantics are
  `writeFile`, which replaces any previous entry at the same path.
* A plotly figure is abstracted to whether kaleido serialization succeeds
  (`Fig.serializeOk`); a failing `fig.write_image` raises, modelled by
  `Except.error (PyError.renderingError ...)` threaded through the call.
* `datetime.now().strftime("%Y%m%d_%H%M%S")` is an opaque timestamp string
  parameter `ts`.
* reportlab story elements and python-docx document elements are both
  flattened to the common `Block` list they build, in build order.
-/

namespace ReportGen

/-- One row of the delivery-orders dataset (`self.df`); the decimal
columns `Order Value (INR)` and `Delivery Time (Minutes)` are carried as
exact integer counts of hundredths. -/
structure OrderRecord where
  orderId : Nat
  platform : String
  category : String
  orderValueCents : Int
  deliveryTimeCents : Int
deriving DecidableEq, Repr

/-- `mean` of values given in hundredths followed by `.round(2)`: the
exact mean is `num / den` hundredths, and rounding to two decimals keeps
whole hundredths, so this is `floor(num / den + 1 / 2)` computed in exact
integer arithmetic (for `den > 0`). -/
def roundedMeanCents (num den : Int) : Int := Int.fdiv (2 * num + den) (2 * den)

/-- Rendering of a nonnegative whole-hundredths value the way Python
`str()` prints the corresponding float: minimal digits, at least one
fractional digit, no thousands separator (`str(50.0) = "50.0"`,
`str(1234.5) = "1234.5"`, `str(95.55) = "95.55"`). -/
def natFloatStr (n : Nat) : String :=
  let ip := n / 100
  let frac := n % 100
  if frac = 0 then toString ip ++ ".0"
  else if frac % 10 = 0 then toString ip ++ "." ++ toString (frac / 10)
  else if frac < 10 then toString ip ++ ".0" ++ toString frac
  else toString ip ++ "." ++ toString frac

/-- `str()` of a float that is a whole number of hundredths. -/
def strFloatOfCents (c : Int) : String :=
  if c < 0 then "-" ++ natFloatStr c.natAbs else natFloatStr c.natAbs

/-- Digit grouping of a reversed digit list: a comma after every three
digits (working from the least significant end). -/
def commaRev : List Char → List Char
  | a :: b :: c :: d :: rest => a :: b :: c :: ',' :: commaRev (d :: rest)
  | ds => ds

/-- Python's `f"{n:,}"` thousands-separated integer formatting, used for
the Total Orders cell of the Dataset Overview tables. -/
def fmtComma (n : Nat) : String :=
  String.mk (commaRev (toString n).data.reverse).reverse

/-- Insertion into a `≤`-sorted list of strings. -/
def insertSorted (s : String) : List String → List String
  | [] => [s]
  | t :: ts => if s ≤ t then s :: t :: ts else t :: insertSorted s ts

/-- Lexicographic sort, modelling the sorted group keys of pandas
`groupby` with its default `sort=True`. -/
def sortStrings : List String → List String
  | [] => []
  | s :: ss => insertSorted s (sortStrings ss)

/-- One row of `self.platform_stats`: the renamed aggregate columns
`['Avg Order Value', 'Avg Delivery Time', 'Total Orders']`, means stored
as hundredths after `.round(2)`. -/
structure StatRow where
  platform : String
  avgOrderValue : Int
  avgDeliveryTime : Int
  totalOrders : Nat
deriving DecidableEq, Repr

/-- `self.platform_stats.columns` after the rename in `__init__`. -/
def statColumns : List String :=
  ["Avg Order Value", "Avg Delivery Time", "Total Orders"]

/-- `df.groupby('Platform').agg({'Order Value (INR)': 'mean',
'Delivery Time (Minutes)': 'mean', 'Order ID': 'count'}).round(2)`:
group keys in lexicographic order, rounded mean of each metric per group,
count of rows per group. -/
def computePlatformStats (df : List OrderRecord) : List StatRow :=
  (sortStrings (df.map (fun r => r.platform)).eraseDups).map (fun p =>
    let rows := df.filter (fun r => r.platform == p)
    { platform := p
      avgOrderValue := roundedMeanCents (rows.map (fun r => r.orderValueCents)).sum rows.length
      avgDeliveryTime := roundedMeanCents (rows.map (fun r => r.deliveryTimeCents)).sum rows.length
      totalOrders := rows.length })

/-- `str(self.platform_stats.loc[platform][col])`: the cross-section
`.loc[platform]` upcasts the integer count to float (common dtype of the
mixed row), so all three columns print through float `str()`. -/
def statCell (r : StatRow) (col : String) : String :=
  if col == "Avg Order Value" then strFloatOfCents r.avgOrderValue
  else if col == "Avg Delivery Time" then strFloatOfCents r.avgDeliveryTime
  else if col == "Total Orders" then strFloatOfCents (100 * (r.totalOrders : Int))
  else ""

/-- A path under the output tree: `output/temp/<filename>` or
`output/reports/<filename>`. The two directories are distinct, so no
temp path equals a report path. -/
inductive FPath where
  | temp (filename : String)
  | report (filename : String)
deriving DecidableEq, Repr

/-- The concrete path string a structured path stands for. -/
def FPath.toPathString : FPath → String
  | .temp f => "output/temp/" ++ f
  | .report f => "output/reports/" ++ f

/-- A document element: common flattening of the reportlab story list and
the python-docx element sequence, in build order. -/
inductive Block where
  | heading (level : Nat) (text : String)
  | paragraph (text : String)
  | spacer
  | table (rows : List (List String))
  | image (path : FPath)
deriving DecidableEq, Repr

/-- Content of a written file: a serialized chart PNG or a built
PDF/Word document. -/
inductive FileContent where
  | png (chartName : String)
  | doc (blocks : List Block)
deriving DecidableEq, Repr

/-- The filesystem under `output/`: entries path ↦ content. -/
abbrev FS := List (FPath × FileContent)

/-- Writing a file (`open(path, 'w')` semantics): any previous entry at
the same path is replaced. -/
def writeFile (fs : FS) (p : FPath) (c : FileContent) : FS :=
  (p, c) :: fs.filter (fun e => e.1 != p)

/-- First (current) content at a path, if the file exists. -/
def lookupFile : FS → FPath → Option FileContent
  | [], _ => none
  | e :: rest, p => if e.1 = p then some e.2 else lookupFile rest p

/-- Exceptions crossing the `generate` boundary: kaleido failing to
serialize a figure (the spec's RenderingError). -/
inductive PyError where
  | renderingError (chartName : String)
deriving DecidableEq, Repr

/-- A plotly figure, abstracted to whether `fig.write_image` succeeds. -/
structure Fig where
  serializeOk : Bool
deriving DecidableEq, Repr

/-- The assembler instance: `self.df`, `self.platform_stats`, and the
mutable `self.image_paths` list. -/
structure ReportGenerator where
  df : List OrderRecord
  platform_stats : List StatRow
  image_paths : List FPath
deriving DecidableEq, Repr

/-- `ReportGenerator.__init__`: store the frame, compute platform_stats;
`image_paths` does not exist yet, modelled as `[]`. (The `category_stats`
frame is also computed there but never used by any report; the directory
creation has no observable effect in this model.) -/
def mkReportGenerator (df : List OrderRecord) : ReportGenerator :=
  { df := df, platform_stats := computePlatformStats df, image_paths := [] }

/-- `save_figure_as_image`: write the PNG to `output/temp/<filename>` and
return the temp path, or raise when kaleido fails. -/
def save_figure_as_image (fs : FS) (fig : Fig) (filename : String) :
    FS × Except PyError FPath :=
  let temp_path := FPath.temp filename
  if fig.serializeOk then
    (writeFile fs temp_path (FileContent.png filename), Except.ok temp_path)
  else (fs, Except.error (PyError.renderingError filename))

/-- The loop body of `save_current_figures`: iterate the figures mapping
in order, appending each temp path, stopping at the first failure (the
paths accumulated so far stay on the instance, as in Python). -/
def saveFiguresLoop (fs : FS) (acc : List FPath) :
    List (String × Fig) → FS × List FPath × Except PyError Unit
  | [] => (fs, acc, Except.ok ())
  | (name, fig) :: rest =>
    match save_figure_as_image fs fig (name ++ ".png") with
    | (fs2, Except.ok p) => saveFiguresLoop fs2 (acc ++ [p]) rest
    | (fs2, Except.error e) => (fs2, acc, Except.error e)

/-- `save_current_figures`: reset `self.image_paths` to `[]`, then append
one temp path per figure in mapping order. -/
def save_current_figures (g : ReportGenerator) (fs : FS)
    (figures : List (String × Fig)) : FS × ReportGenerator × Except PyError Unit :=
  match saveFiguresLoop fs [] figures with
  | (fs2, ps, r) => (fs2, { g with image_paths := ps }, r)

/-- The temp path each figure of the mapping serializes to, in mapping
order: `output/temp/<name>.png`. -/
def figurePaths (figures : List (String × Fig)) : List FPath :=
  figures.map (fun nf => FPath.temp (nf.1 ++ ".png"))

/-- The `overview_data` rows of the PDF (no header row; `len(self.df)`
comma-formatted, the two distinct counts plain `str`). -/
def overviewDataPdf (df : List OrderRecord) : List (List String) :=
  [["Total Orders", fmtComma df.length],
   ["Number of Platforms", toString (df.map (fun r => r.platform)).eraseDups.length],
   ["Number of Product Categories", toString (df.map (fun r => r.category)).eraseDups.length]]

/-- The Word overview table: a `Metric`/`Value` header row, then the same
three key/value rows as the PDF. -/
def overviewDataWord (df : List OrderRecord) : List (List String) :=
  ["Metric", "Value"] :: overviewDataPdf df

/-- The PDF `platform_data`: header `['Platform'] + list(columns)`, then
one row per platform of `platform_stats.index`, in index order, each cell
`str(platform_stats.loc[platform][col])` in column order. -/
def pdfPlatformData (ps : List StatRow) : List (List String) :=
  ("Platform" :: statColumns) ::
    ps.map (fun r => r.platform :: statColumns.map (statCell r))

/-- The Word platform table: the 4-column grid filled cell by cell —
header cell 0 `Platform`, cells 1..3 the stats columns via
`enumerate(columns, 1)`; then per platform of the index, in order, cell 0
the platform and cells 1..3 `str(loc[platform][col])` — i.e. the same
rows the PDF builds. -/
def wordPlatformData (ps : List StatRow) : List (List String) :=
  ("Platform" :: statColumns) ::
    ps.map (fun r => r.platform :: statColumns.map (statCell r))

/-- The reportlab story built by `generate_pdf`, given the instance state
after `save_current_figures`: title and author paragraphs, spacer, the
three Heading2 sections, overview and platform tables, then one
`Image` + `Spacer` pair per stored image path, in order. -/
def pdfStory (g : ReportGenerator) : List Block :=
  [Block.paragraph "E-commerce Delivery Analytics Report",
   Block.paragraph "Created by: Vijeta Thakur",
   Block.spacer,
   Block.heading 2 "Dataset Overview",
   Block.table (overviewDataPdf g.df),
   Block.spacer,
   Block.heading 2 "Platform Performance Metrics",
   Block.table (pdfPlatformData g.platform_stats),
   Block.spacer,
   Block.heading 2 "Visualizations"] ++
  g.image_paths.flatMap (fun p => [Block.image p, Block.spacer])

/-- The python-docx document built by `generate_word`: level-0 title
heading, author paragraph, level-1 headings for the three sections,
overview and platform tables, empty paragraphs as separators, then one
picture + empty paragraph pair per stored image path, in order. -/
def wordBlocks (g : ReportGenerator) : List Block :=
  [Block.heading 0 "E-commerce Delivery Analytics Report",
   Block.paragraph "Created by: Vijeta Thakur",
   Block.heading 1 "Dataset Overview",
   Block.table (overviewDataWord g.df),
   Block.paragraph "",
   Block.heading 1 "Platform Performance Metrics",
   Block.table (wordPlatformData g.platform_stats),
   Block.paragraph "",
   Block.heading 1 "Visualizations"] ++
  g.image_paths.flatMap (fun p => [Block.image p, Block.paragraph ""])

/-- `f'ecommerce_analysis_report_{timestamp}'` plus the extension. -/
def reportFileName (ts ext : String) : String :=
  "ecommerce_analysis_report_" ++ ts ++ ext

/-- `generate_pdf`: serialize all figures first (aborting on failure with
the partial image-path state, as the Python exception does), then build
the story and write it to the timestamped report path. -/
def generate_pdf (g : ReportGenerator) (fs : FS)
    (figures : List (String × Fig)) (ts : String) :
    FS × ReportGenerator × Except PyError FPath :=
  match save_current_figures g fs figures with
  | (fs2, g2, Except.error e) => (fs2, g2, Except.error e)
  | (fs2, g2, Except.ok _) =>
    let filename := FPath.report (reportFileName ts ".pdf")
    (writeFile fs2 filename (FileContent.doc (pdfStory g2)), g2, Except.ok filename)

/-- `generate_word`: same shape as `generate_pdf` with the docx document
and extension. -/
def generate_word (g : ReportGenerator) (fs : FS)
    (figures : List (String × Fig)) (ts : String) :
    FS × ReportGenerator × Except PyError FPath :=
  match save_current_figures g fs figures with
  | (fs2, g2, Except.error e) => (fs2, g2, Except.error e)
  | (fs2, g2, Except.ok _) =>
    let filename := FPath.report (reportFileName ts ".docx")
    (writeFile fs2 filename (FileContent.doc (wordBlocks g2)), g2, Except.ok filename)

/-- Whether a filesystem entry lives in the reports directory. -/
def isReportEntry (e : FPath × FileContent) : Bool :=
  match e.1 with
  | .report _ => true
  | .temp _ => false

/-- The entries of the reports directory. -/
def reportEntries (fs : FS) : FS := fs.filter isReportEntry

/-- The tables of a document, in document order. -/
def tablesOf (d : List Block) : List (List (List String)) :=
  d.filterMap (fun b => match b with
    | .table rows => some rows
    | _ => none)

/-- The section heading texts of a document, in order (the Word title is
a level-0 heading and is not a section). -/
def sectionHeadings (d : List Block) : List String :=
  d.filterMap (fun b => match b with
    | .heading lvl t => if 1 ≤ lvl then some t else none
    | _ => none)

/-- The image paths embedded in a document, in order. -/
def imagesOf (d : List Block) : List FPath :=
  d.filterMap (fun b => match b with
    | .image p => some p
    | _ => none)

/-- The visible text of a block, when it has one. -/
def blockText : Block → Option String
  | .heading _ t => some t
  | .paragraph t => some t
  | _ => none

/-- For each image of a document in order: the block just before it, its
path, and the block just after it. -/
def scanImages (prev : Option Block) : List Block → List (Option Block × FPath × Option Block)
  | [] => []
  | b :: rest =>
    match b with
    | .image p => (prev, p, rest.head?) :: scanImages (some b) rest
    | _ => scanImages (some b) rest

/-- Whether a block is an image. -/
def isImageB : Block → Bool
  | .image _ => true
  | _ => false

/-- The filesystem after serializing a list of figures that all succeed:
one PNG written under `output/temp` per figure, in order. -/
def tempWrites (fs : FS) (figures : List (String × Fig)) : FS :=
  figures.foldl
    (fun acc nf => writeFile acc (FPath.temp (nf.1 ++ ".png")) (FileContent.png (nf.1 ++ ".png")))
    fs

/-- No file exists yet at the given path. -/
def freshPath (fs : FS) (p : FPath) : Prop := ∀ e ∈ fs, e.1 ≠ p

/-- A one-order dataset whose order value is 1234.50 INR (123450
hundredths) and delivery time 30.00 minutes: its platform mean order
value is exactly 1234.5. -/
def dfA : List OrderRecord :=
  [{ orderId := 1, platform := "Blinkit", category := "Grocery",
     orderValueCents := 123450, deliveryTimeCents := 3000 }]

/-- A pre-existing unrelated temp file, standing for earlier state of the
output tree. -/
def fs0 : FS := [(FPath.temp "old.png", FileContent.png "old.png")]

/-- Two chart figures named `a` and `b`, both serializable. -/
def figsB : List (String × Fig) :=
  [("a", { serializeOk := true }), ("b", { serializeOk := true })]

/-- A figures mapping whose second chart fails to serialize. -/
def figsBad : List (String × Fig) :=
  [("good", { serializeOk := true }), ("bad", { serializeOk := false })]

/-- A concrete PDF generation with no charts. -/
def genA : FS × ReportGenerator × Except PyError FPath :=
  generate_pdf (mkReportGenerator dfA) [] [] "20250101_120000"

/-- A concrete PDF generation with the two charts `a` and `b`. -/
def genB : FS × ReportGenerator × Except PyError FPath :=
  generate_pdf (mkReportGenerator dfA) [] figsB "20250101_120000"

/-- A second PDF generation on the same instance, in the same clock
second as `genA`, starting from the filesystem `genA` left behind. -/
def genA2 : FS × ReportGenerator × Except PyError FPath :=
  generate_pdf genA.2.1 genA.1 figsB "20250101_120000"

end ReportGen

namespace ReportGen

lemma saveFiguresLoop_ok (figures : List (String × Fig)) (fs : FS) (acc : List FPath)
    (hok : ∀ nf ∈ figures, nf.2.serializeOk = true) :
    saveFiguresLoop fs acc figures =
      (tempWrites fs figures, acc ++ figurePaths figures, Except.ok ()) := by
  induction figures generalizing fs acc with
  | nil => simp [saveFiguresLoop, tempWrites, figurePaths]
  | cons nf rest ih =>
    obtain ⟨name, fig⟩ := nf
    have hhd : fig.serializeOk = true := hok (name, fig) (List.mem_cons_self _ rest)
    simp only [saveFiguresLoop, save_figure_as_image, hhd, if_true]
    rw [ih _ _ (fun x hx => hok x (List.mem_cons_of_mem _ hx))]
    simp [tempWrites, figurePaths]

lemma save_current_figures_ok (g : ReportGenerator) (fs : FS)
    (figures : List (String × Fig)) (hok : ∀ nf ∈ figures, nf.2.serializeOk = true) :
    save_current_figures g fs figures =
      (tempWrites fs figures, { g with image_paths := figurePaths figures }, Except.ok ()) := by
  simp [save_current_figures, saveFiguresLoop_ok figures fs [] hok]

lemma generate_pdf_ok (g : ReportGenerator) (fs : FS)
    (figures : List (String × Fig)) (ts : String)
    (hok : ∀ nf ∈ figures, nf.2.serializeOk = true) :
    generate_pdf g fs figures ts =
      (writeFile (tempWrites fs figures) (FPath.report (reportFileName ts ".pdf"))
         (FileContent.doc (pdfStory { g with image_paths := figurePaths figures })),
       { g with image_paths := figurePaths figures },
       Except.ok (FPath.report (reportFileName ts ".pdf"))) := by
  simp [generate_pdf, save_current_figures_ok g fs figures hok]

lemma generate_word_ok (g : ReportGenerator) (fs : FS)
    (figures : List (String × Fig)) (ts : String)
    (hok : ∀ nf ∈ figures, nf.2.serializeOk = true) :
    generate_word g fs figures ts =
      (writeFile (tempWrites fs figures) (FPath.report (reportFileName ts ".docx"))
         (FileContent.doc (wordBlocks { g with image_paths := figurePaths figures })),
       { g with image_paths := figurePaths figures },
       Except.ok (FPath.report (reportFileName ts ".docx"))) := by
  simp [generate_word, save_current_figures_ok g fs figures hok]

lemma reportEntries_filter (fs : FS) (q : FPath × FileContent → Bool)
    (hq : ∀ e, isReportEntry e = true → q e = true) :
    reportEntries (fs.filter q) = reportEntries fs := by
  induction fs with
  | nil => rfl
  | cons e rest ih =>
    by_cases hr : isReportEntry e = true
    · simp [reportEntries, List.filter, hq e hr, hr] at ih ⊢
      exact ih
    · simp only [Bool.not_eq_true] at hr
      cases hqe : q e <;>
        simp [reportEntries, List.filter, hqe, hr] at ih ⊢ <;> exact ih

lemma isReportEntry_ne_temp (e : FPath × FileContent) (f : String)
    (hr : isReportEntry e = true) : (e.1 != FPath.temp f) = true := by
  obtain ⟨p, c⟩ := e
  cases p with
  | temp t => simp [isReportEntry] at hr
  | report t => simp

lemma reportEntries_writeFile_temp (fs : FS) (f : String) (c : FileContent) :
    reportEntries (writeFile fs (FPath.temp f) c) = reportEntries fs := by
  have h1 : reportEntries ((FPath.temp f, c) :: fs.filter (fun e => e.1 != FPath.temp f)) =
      reportEntries (fs.filter (fun e => e.1 != FPath.temp f)) := by
    simp [reportEntries, List.filter, isReportEntry]
  rw [writeFile, h1, reportEntries_filter _ _ (fun e he => isReportEntry_ne_temp e f he)]

lemma tempWrites_reportEntries (figures : List (String × Fig)) (fs : FS) :
    reportEntries (tempWrites fs figures) = reportEntries fs := by
  induction figures generalizing fs with
  | nil => rfl
  | cons nf rest ih => rw [tempWrites, List.foldl_cons, ← tempWrites, ih,
      reportEntries_writeFile_temp]

lemma saveFiguresLoop_reportEntries (figures : List (String × Fig)) (fs : FS) (acc : List FPath) :
    reportEntries (saveFiguresLoop fs acc figures).1 = reportEntries fs := by
  induction figures generalizing fs acc with
  | nil => rfl
  | cons nf rest ih =>
    obtain ⟨name, fig⟩ := nf
    cases hfig : fig.serializeOk with
    | true =>
      simp only [saveFiguresLoop, save_figure_as_image, hfig, if_true]
      rw [ih, reportEntries_writeFile_temp]
    | false =>
      simp [saveFiguresLoop, save_figure_as_image, hfig]

lemma saveFiguresLoop_error (figures : List (String × Fig)) (fs : FS) (acc : List FPath)
    (hbad : ∃ nf ∈ figures, nf.2.serializeOk = false) :
    ∃ n, (saveFiguresLoop fs acc figures).2.2 = Except.error (PyError.renderingError n) := by
  induction figures generalizing fs acc with
  | nil => simp at hbad
  | cons nf rest ih =>
    obtain ⟨name, fig⟩ := nf
    cases hfig : fig.serializeOk with
    | false => exact ⟨name ++ ".png", by simp [saveFiguresLoop, save_figure_as_image, hfig]⟩
    | true =>
      simp only [saveFiguresLoop, save_figure_as_image, hfig, if_true]
      apply ih
      rcases hbad with ⟨x, hx, hxf⟩
      rcases List.mem_cons.mp hx with h | h
      · subst h; simp [hfig] at hxf
      · exact ⟨x, h, hxf⟩

lemma filter_ne_of_fresh (fs : FS) (p : FPath) (h : freshPath fs p) :
    fs.filter (fun e => e.1 != p) = fs := by
  induction fs with
  | nil => rfl
  | cons e rest ih =>
    have he : (e.1 != p) = true := by
      simp [bne_iff_ne]
      exact h e (List.mem_cons_self _ _)
    have ih2 := ih (fun x hx => h x (List.mem_cons_of_mem _ hx))
    simp [List.filter, he, ih2]

lemma freshPath_writeFile_temp (fs : FS) (f t : String) (c : FileContent)
    (h : freshPath fs (FPath.report f)) :
    freshPath (writeFile fs (FPath.temp t) c) (FPath.report f) := by
  intro e he
  rcases List.mem_cons.mp he with rfl | hmem
  · simp
  · exact h e (List.mem_filter.mp hmem).1

lemma freshPath_tempWrites (figures : List (String × Fig)) (fs : FS) (f : String)
    (h : freshPath fs (FPath.report f)) :
    freshPath (tempWrites fs figures) (FPath.report f) := by
  induction figures generalizing fs with
  | nil => exact h
  | cons nf rest ih =>
    rw [tempWrites, List.foldl_cons, ← tempWrites]
    exact ih _ (freshPath_writeFile_temp _ _ _ _ h)

lemma lookupFile_writeFile_self (fs : FS) (p : FPath) (c : FileContent) :
    lookupFile (writeFile fs p c) p = some c := by
  simp [writeFile, lookupFile]

lemma reportEntries_writeFile_report_fresh (fs : FS) (f : String) (c : FileContent)
    (h : freshPath fs (FPath.report f)) :
    reportEntries (writeFile fs (FPath.report f) c) =
      (FPath.report f, c) :: reportEntries fs := by
  rw [writeFile, filter_ne_of_fresh fs _ h]
  simp [reportEntries, List.filter, isReportEntry]

lemma imagesOf_append (d1 d2 : List Block) :
    imagesOf (d1 ++ d2) = imagesOf d1 ++ imagesOf d2 := by
  simp [imagesOf]

lemma imagesOf_visTail (paths : List FPath) (sep : Block) (hsep : isImageB sep = false) :
    imagesOf (paths.flatMap (fun p => [Block.image p, sep])) = paths := by
  induction paths with
  | nil => rfl
  | cons p rest ih =>
    cases sep <;> simp_all [imagesOf, isImageB]

lemma filterMapBlock_visTail {α : Type} (f : Block → Option α) (paths : List FPath)
    (sep : Block) (himg : ∀ p, f (Block.image p) = none) (hsep : f sep = none) :
    (paths.flatMap (fun p => [Block.image p, sep])).filterMap f = [] := by
  induction paths with
  | nil => rfl
  | cons p rest ih =>
    simp only [List.flatMap_cons, List.cons_append, List.nil_append,
      List.filterMap_cons, himg, hsep]
    exact ih

lemma sectionHeadings_append (d1 d2 : List Block) :
    sectionHeadings (d1 ++ d2) = sectionHeadings d1 ++ sectionHeadings d2 := by
  simp [sectionHeadings]

lemma sectionHeadings_visTail (paths : List FPath) (sep : Block)
    (hsep : blockText sep = none ∨ sep = Block.paragraph "") :
    sectionHeadings (paths.flatMap (fun p => [Block.image p, sep])) = [] := by
  apply filterMapBlock_visTail
  · intro p; rfl
  · rcases hsep with h | h
    · cases sep <;> simp_all [sectionHeadings, blockText]
    · subst h; rfl

lemma tablesOf_append (d1 d2 : List Block) :
    tablesOf (d1 ++ d2) = tablesOf d1 ++ tablesOf d2 := by
  simp [tablesOf]

lemma tablesOf_visTail (paths : List FPath) (sep : Block)
    (hsep : ∀ rows, sep ≠ Block.table rows) :
    tablesOf (paths.flatMap (fun p => [Block.image p, sep])) = [] := by
  apply filterMapBlock_visTail
  · intro p; rfl
  · cases sep <;> simp_all

lemma imagesOf_pdfStory (g : ReportGenerator) :
    imagesOf (pdfStory g) = g.image_paths := by
  rw [pdfStory, imagesOf_append, imagesOf_visTail _ _ (by rfl)]
  simp [imagesOf]

lemma imagesOf_wordBlocks (g : ReportGenerator) :
    imagesOf (wordBlocks g) = g.image_paths := by
  rw [wordBlocks, imagesOf_append, imagesOf_visTail _ _ (by rfl)]
  simp [imagesOf]

lemma sectionHeadings_pdfStory (g : ReportGenerator) :
    sectionHeadings (pdfStory g) =
      ["Dataset Overview", "Platform Performance Metrics", "Visualizations"] := by
  rw [pdfStory, sectionHeadings_append, sectionHeadings_visTail _ _ (Or.inl (by rfl))]
  simp [sectionHeadings]

lemma sectionHeadings_wordBlocks (g : ReportGenerator) :
    sectionHeadings (wordBlocks g) =
      ["Dataset Overview", "Platform Performance Metrics", "Visualizations"] := by
  rw [wordBlocks, sectionHeadings_append, sectionHeadings_visTail _ _ (Or.inr rfl)]
  simp [sectionHeadings]

lemma tablesOf_pdfStory (g : ReportGenerator) :
    tablesOf (pdfStory g) = [overviewDataPdf g.df, pdfPlatformData g.platform_stats] := by
  rw [pdfStory, tablesOf_append, tablesOf_visTail _ _ (by intro rows h; cases h)]
  simp [tablesOf]

lemma tablesOf_wordBlocks (g : ReportGenerator) :
    tablesOf (wordBlocks g) = [overviewDataWord g.df, wordPlatformData g.platform_stats] := by
  rw [wordBlocks, tablesOf_append, tablesOf_visTail _ _ (by intro rows h; cases h)]
  simp [tablesOf]

lemma scanImages_visTail_mids (paths : List FPath) (sep : Block) (prev : Option Block)
    (hsep : isImageB sep = false) :
    (scanImages prev (paths.flatMap (fun p => [Block.image p, sep]))).map
        (fun t => t.2.1) = paths := by
  induction paths generalizing prev with
  | nil => rfl
  | cons p rest ih =>
    simp only [List.flatMap_cons, List.cons_append, List.nil_append, scanImages,
      List.head?_cons, List.map_cons]
    refine congrArg (List.cons p) ?_
    cases sep with
    | image q => simp [isImageB] at hsep
    | heading lvl t => simp only [scanImages]; exact ih _
    | paragraph t => simp only [scanImages]; exact ih _
    | spacer => simp only [scanImages]; exact ih _
    | table rows => simp only [scanImages]; exact ih _

lemma scanImages_visTail_nexts (paths : List FPath) (sep : Block) (prev : Option Block)
    (hsep : isImageB sep = false) :
    (scanImages prev (paths.flatMap (fun p => [Block.image p, sep]))).map
        (fun t => t.2.2) = List.replicate paths.length (some sep) := by
  induction paths generalizing prev with
  | nil => rfl
  | cons p rest ih =>
    simp only [List.flatMap_cons, List.cons_append, List.nil_append, scanImages,
      List.head?_cons, List.map_cons, List.length_cons, List.replicate_succ]
    refine congrArg (List.cons (some sep)) ?_
    cases sep with
    | image q => simp [isImageB] at hsep
    | heading lvl t => simp only [scanImages]; exact ih _
    | paragraph t => simp only [scanImages]; exact ih _
    | spacer => simp only [scanImages]; exact ih _
    | table rows => simp only [scanImages]; exact ih _

lemma scanImages_pdfStory (g : ReportGenerator) :
    scanImages none (pdfStory g) =
      scanImages (some (Block.heading 2 "Visualizations"))
        (g.image_paths.flatMap (fun p => [Block.image p, Block.spacer])) := by
  rw [pdfStory]
  simp only [List.cons_append, List.nil_append, scanImages, List.append_nil,
    List.nil_append, List.append_eq]

lemma scanImages_wordBlocks (g : ReportGenerator) :
    scanImages none (wordBlocks g) =
      scanImages (some (Block.heading 1 "Visualizations"))
        (g.image_paths.flatMap (fun p => [Block.image p, Block.paragraph ""])) := by
  rw [wordBlocks]
  simp only [List.cons_append, List.nil_append, scanImages, List.append_nil,
    List.nil_append, List.append_eq]

end ReportGen

namespace ReportGen

/-- C1: for every dataset (any assembler state) and every ordered figures
mapping, the PDF and Word documents generate the same ordered list of
section headings, and their platform-performance tables are equal: same
column order, same row order, identical formatted cell values. -/
theorem c1_pdf_word_format_parity (g : ReportGenerator) (fs1 fs2 : FS)
    (figures : List (String × Fig)) (ts1 ts2 : String)
    (hok : ∀ nf ∈ figures, nf.2.serializeOk = true) :
    ∃ p1 p2 d1 d2,
      (generate_pdf g fs1 figures ts1).2.2 = Except.ok p1 ∧
      lookupFile (generate_pdf g fs1 figures ts1).1 p1 = some (FileContent.doc d1) ∧
      (generate_word g fs2 figures ts2).2.2 = Except.ok p2 ∧
      lookupFile (generate_word g fs2 figures ts2).1 p2 = some (FileContent.doc d2) ∧
      sectionHeadings d1 = sectionHeadings d2 ∧
      (tablesOf d1).get? 1 = some (pdfPlatformData g.platform_stats) ∧
      (tablesOf d2).get? 1 = some (wordPlatformData g.platform_stats) ∧
      pdfPlatformData g.platform_stats = wordPlatformData g.platform_stats := by
  rw [generate_pdf_ok g fs1 figures ts1 hok, generate_word_ok g fs2 figures ts2 hok]
  refine ⟨FPath.report (reportFileName ts1 ".pdf"), FPath.report (reportFileName ts2 ".docx"),
    pdfStory { g with image_paths := figurePaths figures },
    wordBlocks { g with image_paths := figurePaths figures },
    rfl, lookupFile_writeFile_self _ _ _, rfl, lookupFile_writeFile_self _ _ _, ?_, ?_, ?_, rfl⟩
  · rw [sectionHeadings_pdfStory, sectionHeadings_wordBlocks]
  · rw [tablesOf_pdfStory]; rfl
  · rw [tablesOf_wordBlocks]; rfl

theorem c1_witness :
    (∀ nf ∈ figsB, nf.2.serializeOk = true) ∧
    (∃ p1 p2 d1 d2,
      (generate_pdf (mkReportGenerator dfA) [] figsB "20250101_120000").2.2 = Except.ok p1 ∧
      lookupFile (generate_pdf (mkReportGenerator dfA) [] figsB "20250101_120000").1 p1 =
        some (FileContent.doc d1) ∧
      (generate_word (mkReportGenerator dfA) fs0 figsB "20250101_120001").2.2 = Except.ok p2 ∧
      lookupFile (generate_word (mkReportGenerator dfA) fs0 figsB "20250101_120001").1 p2 =
        some (FileContent.doc d2) ∧
      sectionHeadings d1 = sectionHeadings d2 ∧
      (tablesOf d1).get? 1 = some (pdfPlatformData (mkReportGenerator dfA).platform_stats) ∧
      (tablesOf d2).get? 1 = some (wordPlatformData (mkReportGenerator dfA).platform_stats) ∧
      pdfPlatformData (mkReportGenerator dfA).platform_stats =
        wordPlatformData (mkReportGenerator dfA).platform_stats) :=
  ⟨by decide,
   c1_pdf_word_format_parity (mkReportGenerator dfA) [] fs0 figsB
     "20250101_120000" "20250101_120001" (by decide)⟩

/-- C2: if serializing any one figure fails, both generate calls end in a
RenderingError and the reports directory is left exactly as it was: no
new document file is created. -/
theorem c2_rendering_error_aborts (g : ReportGenerator) (fs : FS)
    (figures : List (String × Fig)) (ts : String)
    (hbad : ∃ nf ∈ figures, nf.2.serializeOk = false) :
    (∃ n, (generate_pdf g fs figures ts).2.2 = Except.error (PyError.renderingError n)) ∧
    reportEntries (generate_pdf g fs figures ts).1 = reportEntries fs ∧
    (∃ n, (generate_word g fs figures ts).2.2 = Except.error (PyError.renderingError n)) ∧
    reportEntries (generate_word g fs figures ts).1 = reportEntries fs := by
  obtain ⟨n, hn⟩ := saveFiguresLoop_error figures fs [] hbad
  have hrep := saveFiguresLoop_reportEntries figures fs []
  rcases hloop : saveFiguresLoop fs [] figures with ⟨fs2, ps, r⟩
  rw [hloop] at hn hrep
  simp only at hn hrep
  subst hn
  refine ⟨⟨n, ?_⟩, ?_, ⟨n, ?_⟩, ?_⟩ <;>
    simp [generate_pdf, generate_word, save_current_figures, hloop, hrep]

theorem c2_witness :
    (∃ nf ∈ figsBad, nf.2.serializeOk = false) ∧
    ((∃ n, (generate_pdf (mkReportGenerator dfA) fs0 figsBad "20250101_120000").2.2 =
        Except.error (PyError.renderingError n)) ∧
     reportEntries (generate_pdf (mkReportGenerator dfA) fs0 figsBad "20250101_120000").1 =
       reportEntries fs0 ∧
     (∃ n, (generate_word (mkReportGenerator dfA) fs0 figsBad "20250101_120000").2.2 =
        Except.error (PyError.renderingError n)) ∧
     reportEntries (generate_word (mkReportGenerator dfA) fs0 figsBad "20250101_120000").1 =
       reportEntries fs0) :=
  ⟨by decide,
   c2_rendering_error_aborts (mkReportGenerator dfA) fs0 figsBad "20250101_120000" (by decide)⟩

end ReportGen

namespace ReportGen

/-- C3: for every platform-statistics table with N rows, the platform
table built for either output format has exactly N data rows after the
one header row, the data rows carry the platforms in exactly the order of
the statistics table (never re-sorted), both formats build the identical
table, and that table is the second table of the generated document. -/
theorem c3_platform_rows_order (ps : List StatRow) (g : ReportGenerator) :
    (pdfPlatformData ps).length = ps.length + 1 ∧
    (pdfPlatformData ps).get? 0 = some ("Platform" :: statColumns) ∧
    ((pdfPlatformData ps).tail).map (fun row => row.get? 0) =
      ps.map (fun r => some r.platform) ∧
    wordPlatformData ps = pdfPlatformData ps ∧
    (tablesOf (pdfStory g)).get? 1 = some (pdfPlatformData g.platform_stats) ∧
    (tablesOf (wordBlocks g)).get? 1 = some (wordPlatformData g.platform_stats) := by
  refine ⟨?_, rfl, ?_, rfl, ?_, ?_⟩
  · simp [pdfPlatformData]
  · simp [pdfPlatformData]
  · rw [tablesOf_pdfStory]; rfl
  · rw [tablesOf_wordBlocks]; rfl

/-- C8: a successful generate call returns the timestamped report path of
the requested format, that path holds the built document at return time,
and the reports directory afterwards is exactly the old reports directory
plus that one new file. -/
theorem c8_creates_exactly_one_report (g : ReportGenerator) (fs : FS)
    (figures : List (String × Fig)) (ts : String)
    (hok : ∀ nf ∈ figures, nf.2.serializeOk = true)
    (hfp : freshPath fs (FPath.report (reportFileName ts ".pdf")))
    (hfw : freshPath fs (FPath.report (reportFileName ts ".docx"))) :
    (generate_pdf g fs figures ts).2.2 =
      Except.ok (FPath.report (reportFileName ts ".pdf")) ∧
    lookupFile (generate_pdf g fs figures ts).1 (FPath.report (reportFileName ts ".pdf")) =
      some (FileContent.doc (pdfStory (generate_pdf g fs figures ts).2.1)) ∧
    reportEntries (generate_pdf g fs figures ts).1 =
      (FPath.report (reportFileName ts ".pdf"),
        FileContent.doc (pdfStory (generate_pdf g fs figures ts).2.1)) :: reportEntries fs ∧
    (generate_word g fs figures ts).2.2 =
      Except.ok (FPath.report (reportFileName ts ".docx")) ∧
    lookupFile (generate_word g fs figures ts).1 (FPath.report (reportFileName ts ".docx")) =
      some (FileContent.doc (wordBlocks (generate_word g fs figures ts).2.1)) ∧
    reportEntries (generate_word g fs figures ts).1 =
      (FPath.report (reportFileName ts ".docx"),
        FileContent.doc (wordBlocks (generate_word g fs figures ts).2.1)) :: reportEntries fs := by
  rw [generate_pdf_ok g fs figures ts hok, generate_word_ok g fs figures ts hok]
  refine ⟨rfl, lookupFile_writeFile_self _ _ _, ?_, rfl, lookupFile_writeFile_self _ _ _, ?_⟩
  · rw [reportEntries_writeFile_report_fresh _ _ _ (freshPath_tempWrites figures fs _ hfp),
      tempWrites_reportEntries]
  · rw [reportEntries_writeFile_report_fresh _ _ _ (freshPath_tempWrites figures fs _ hfw),
      tempWrites_reportEntries]

theorem c8_witness :
    (∀ nf ∈ figsB, nf.2.serializeOk = true) ∧
    freshPath fs0 (FPath.report (reportFileName "20250101_120000" ".pdf")) ∧
    freshPath fs0 (FPath.report (reportFileName "20250101_120000" ".docx")) ∧
    ((generate_pdf (mkReportGenerator dfA) fs0 figsB "20250101_120000").2.2 =
      Except.ok (FPath.report (reportFileName "20250101_120000" ".pdf")) ∧
    lookupFile (generate_pdf (mkReportGenerator dfA) fs0 figsB "20250101_120000").1
        (FPath.report (reportFileName "20250101_120000" ".pdf")) =
      some (FileContent.doc
        (pdfStory (generate_pdf (mkReportGenerator dfA) fs0 figsB "20250101_120000").2.1)) ∧
    reportEntries (generate_pdf (mkReportGenerator dfA) fs0 figsB "20250101_120000").1 =
      (FPath.report (reportFileName "20250101_120000" ".pdf"),
        FileContent.doc
          (pdfStory (generate_pdf (mkReportGenerator dfA) fs0 figsB "20250101_120000").2.1)) ::
        reportEntries fs0 ∧
    (generate_word (mkReportGenerator dfA) fs0 figsB "20250101_120000").2.2 =
      Except.ok (FPath.report (reportFileName "20250101_120000" ".docx")) ∧
    lookupFile (generate_word (mkReportGenerator dfA) fs0 figsB "20250101_120000").1
        (FPath.report (reportFileName "20250101_120000" ".docx")) =
      some (FileContent.doc
        (wordBlocks (generate_word (mkReportGenerator dfA) fs0 figsB "20250101_120000").2.1)) ∧
    reportEntries (generate_word (mkReportGenerator dfA) fs0 figsB "20250101_120000").1 =
      (FPath.report (reportFileName "20250101_120000" ".docx"),
        FileContent.doc
          (wordBlocks (generate_word (mkReportGenerator dfA) fs0 figsB "20250101_120000").2.1)) ::
        reportEntries fs0) :=
  ⟨by decide, by simp only [freshPath]; decide, by simp only [freshPath]; decide,
   c8_creates_exactly_one_report (mkReportGenerator dfA) fs0 figsB "20250101_120000"
     (by decide) (by simp only [freshPath]; decide) (by simp only [freshPath]; decide)⟩

/-- C9: with an empty figures mapping, both generate calls succeed, the
written document is at the returned path, and its Visualizations section
heading is present while the document embeds zero images. -/
theorem c9_empty_chart_set_ok (g : ReportGenerator) (fs : FS) (ts : String) :
    (generate_pdf g fs [] ts).2.2 =
      Except.ok (FPath.report (reportFileName ts ".pdf")) ∧
    lookupFile (generate_pdf g fs [] ts).1 (FPath.report (reportFileName ts ".pdf")) =
      some (FileContent.doc (pdfStory (generate_pdf g fs [] ts).2.1)) ∧
    imagesOf (pdfStory (generate_pdf g fs [] ts).2.1) = [] ∧
    Block.heading 2 "Visualizations" ∈ pdfStory (generate_pdf g fs [] ts).2.1 ∧
    (generate_word g fs [] ts).2.2 =
      Except.ok (FPath.report (reportFileName ts ".docx")) ∧
    lookupFile (generate_word g fs [] ts).1 (FPath.report (reportFileName ts ".docx")) =
      some (FileContent.doc (wordBlocks (generate_word g fs [] ts).2.1)) ∧
    imagesOf (wordBlocks (generate_word g fs [] ts).2.1) = [] ∧
    Block.heading 1 "Visualizations" ∈ wordBlocks (generate_word g fs [] ts).2.1 := by
  have hok : ∀ nf ∈ ([] : List (String × Fig)), nf.2.serializeOk = true := by simp
  rw [generate_pdf_ok g fs [] ts hok, generate_word_ok g fs [] ts hok]
  refine ⟨rfl, lookupFile_writeFile_self _ _ _, ?_, ?_, rfl,
    lookupFile_writeFile_self _ _ _, ?_, ?_⟩
  · rw [imagesOf_pdfStory]; rfl
  · simp [pdfStory]
  · rw [imagesOf_wordBlocks]; rfl
  · simp [wordBlocks]

/-- C10: every generate call replaces the instance's stored image-path
list with exactly one temp path per entry of the current figures mapping,
in mapping order, and the produced document embeds exactly those images
in that order — nothing from any earlier call survives. -/
theorem c10_image_paths_replaced (g : ReportGenerator) (fs : FS)
    (figures : List (String × Fig)) (ts : String)
    (hok : ∀ nf ∈ figures, nf.2.serializeOk = true) :
    (generate_pdf g fs figures ts).2.1.image_paths = figurePaths figures ∧
    imagesOf (pdfStory (generate_pdf g fs figures ts).2.1) = figurePaths figures ∧
    (generate_word g fs figures ts).2.1.image_paths = figurePaths figures ∧
    imagesOf (wordBlocks (generate_word g fs figures ts).2.1) = figurePaths figures := by
  rw [generate_pdf_ok g fs figures ts hok, generate_word_ok g fs figures ts hok]
  exact ⟨rfl, by rw [imagesOf_pdfStory], rfl, by rw [imagesOf_wordBlocks]⟩

theorem c10_witness :
    (∀ nf ∈ figsB, nf.2.serializeOk = true) ∧
    ((generate_pdf genA.2.1 genA.1 figsB "20250101_120005").2.1.image_paths =
      figurePaths figsB ∧
    imagesOf (pdfStory (generate_pdf genA.2.1 genA.1 figsB "20250101_120005").2.1) =
      figurePaths figsB ∧
    (generate_word genA.2.1 genA.1 figsB "20250101_120005").2.1.image_paths =
      figurePaths figsB ∧
    imagesOf (wordBlocks (generate_word genA.2.1 genA.1 figsB "20250101_120005").2.1) =
      figurePaths figsB) :=
  ⟨by decide,
   c10_image_paths_replaced genA.2.1 genA.1 figsB "20250101_120005" (by decide)⟩

end ReportGen

namespace ReportGen

/-- C4 counterexample: on a dataset whose platform mean order value is
exactly 1234.5, the generated platform table renders that mean as
"1234.5" (no thousands separator, no 2-decimal padding), not "1,234.50";
and the order count 1 is rendered "1.0", not an integer string. -/
theorem c4_counterexample :
    (tablesOf (pdfStory genA.2.1)).get? 1 =
      some [["Platform", "Avg Order Value", "Avg Delivery Time", "Total Orders"],
            ["Blinkit", "1234.5", "30.0", "1.0"]] ∧
    "1234.5" ≠ "1,234.50" ∧ "1.0" ≠ "1" :=
  ⟨rfl, by decide, by decide⟩

/-- C4 amended: platform-table values are the 2-decimal-rounded means
and the count, all rendered through Python float `str()`: a mean of
1234.5 gives "1234.5" and a count of 1235 gives "1235.0" — locale plays
no role, but there is no thousands separator and no fixed decimal
padding. -/
theorem c4_amended_float_str_rendering :
    strFloatOfCents (roundedMeanCents 123450 1) = "1234.5" ∧
    statCell { platform := "X", avgOrderValue := 123450, avgDeliveryTime := 3000,
               totalOrders := 1235 } "Avg Order Value" = "1234.5" ∧
    statCell { platform := "X", avgOrderValue := 123450, avgDeliveryTime := 3000,
               totalOrders := 1235 } "Total Orders" = "1235.0" ∧
    ',' ∉ "1234.5".data ∧ ',' ∉ "1235.0".data :=
  ⟨rfl, rfl, rfl, by decide, by decide⟩

/-- C5 counterexample: two generate(PDF) calls in the same clock second
return the same report path; after the second call the path holds the
second document and the first document is nowhere in the filesystem —
the first report's content was silently overwritten, with no
disambiguating suffix. -/
theorem c5_counterexample :
    genA.2.2 = Except.ok (FPath.report "ecommerce_analysis_report_20250101_120000.pdf") ∧
    genA2.2.2 = Except.ok (FPath.report "ecommerce_analysis_report_20250101_120000.pdf") ∧
    lookupFile genA.1 (FPath.report "ecommerce_analysis_report_20250101_120000.pdf") ≠
      lookupFile genA2.1 (FPath.report "ecommerce_analysis_report_20250101_120000.pdf") ∧
    (lookupFile genA.1
      (FPath.report "ecommerce_analysis_report_20250101_120000.pdf")).isSome = true ∧
    ¬ ((FPath.report "ecommerce_analysis_report_20250101_120000.pdf",
        (lookupFile genA.1
          (FPath.report "ecommerce_analysis_report_20250101_120000.pdf")).getD
            (FileContent.png "")) ∈ genA2.1) :=
  ⟨rfl, rfl, by decide, rfl, by decide⟩

/-- C5 amended: the report filename depends only on the format and the
second-precision timestamp, so two same-second calls target the same
path, and a sequential second call leaves that path holding the second
call's document (overwrite, not a disambiguating suffix). -/
theorem c5_amended_same_second_overwrite (g1 g2 : ReportGenerator) (fs1 : FS)
    (figs1 figs2 : List (String × Fig)) (ts : String)
    (h1 : ∀ nf ∈ figs1, nf.2.serializeOk = true)
    (h2 : ∀ nf ∈ figs2, nf.2.serializeOk = true) :
    (generate_pdf g1 fs1 figs1 ts).2.2 =
      Except.ok (FPath.report (reportFileName ts ".pdf")) ∧
    (generate_pdf g2 (generate_pdf g1 fs1 figs1 ts).1 figs2 ts).2.2 =
      Except.ok (FPath.report (reportFileName ts ".pdf")) ∧
    lookupFile (generate_pdf g2 (generate_pdf g1 fs1 figs1 ts).1 figs2 ts).1
        (FPath.report (reportFileName ts ".pdf")) =
      some (FileContent.doc (pdfStory { g2 with image_paths := figurePaths figs2 })) := by
  rw [generate_pdf_ok g1 fs1 figs1 ts h1]
  rw [generate_pdf_ok g2 _ figs2 ts h2]
  exact ⟨rfl, rfl, lookupFile_writeFile_self _ _ _⟩

theorem c5_amended_witness :
    (∀ nf ∈ ([] : List (String × Fig)), nf.2.serializeOk = true) ∧
    (∀ nf ∈ figsB, nf.2.serializeOk = true) ∧
    ((generate_pdf (mkReportGenerator dfA) [] [] "20250101_120000").2.2 =
      Except.ok (FPath.report (reportFileName "20250101_120000" ".pdf")) ∧
    (generate_pdf genA.2.1 (generate_pdf (mkReportGenerator dfA) [] [] "20250101_120000").1
        figsB "20250101_120000").2.2 =
      Except.ok (FPath.report (reportFileName "20250101_120000" ".pdf")) ∧
    lookupFile (generate_pdf genA.2.1
        (generate_pdf (mkReportGenerator dfA) [] [] "20250101_120000").1
        figsB "20250101_120000").1
        (FPath.report (reportFileName "20250101_120000" ".pdf")) =
      some (FileContent.doc
        (pdfStory { genA.2.1 with image_paths := figurePaths figsB }))) :=
  ⟨by decide, by decide,
   c5_amended_same_second_overwrite (mkReportGenerator dfA) genA.2.1 [] [] figsB
     "20250101_120000" (by decide) (by decide)⟩

/-- C6 counterexample: the PDF platform-performance table header is
exactly the four columns Platform, Avg Order Value, Avg Delivery Time,
Total Orders — length 4, with no min/max variant columns in addition. -/
theorem c6_counterexample :
    ((tablesOf (pdfStory genA.2.1)).get? 1).bind (fun t => t.get? 0) =
      some ["Platform", "Avg Order Value", "Avg Delivery Time", "Total Orders"] ∧
    (["Platform", "Avg Order Value", "Avg Delivery Time", "Total Orders"] :
      List String).length = 4 ∧
    "Min Order Value" ∉
      ["Platform", "Avg Order Value", "Avg Delivery Time", "Total Orders"] ∧
    "Max Order Value" ∉
      ["Platform", "Avg Order Value", "Avg Delivery Time", "Total Orders"] :=
  ⟨rfl, rfl, by decide, by decide⟩

lemma platformHeader_pdf (g : ReportGenerator) :
    ((tablesOf (pdfStory g)).get? 1).bind (fun t => t.get? 0) =
      some ["Platform", "Avg Order Value", "Avg Delivery Time", "Total Orders"] := by
  rw [tablesOf_pdfStory]; rfl

lemma platformHeader_word (g : ReportGenerator) :
    ((tablesOf (wordBlocks g)).get? 1).bind (fun t => t.get? 0) =
      some ["Platform", "Avg Order Value", "Avg Delivery Time", "Total Orders"] := by
  rw [tablesOf_wordBlocks]; rfl

/-- C6 amended: the PDF platform table columns are exactly Platform, Avg
Order Value, Avg Delivery Time, Total Orders — the same three metric
columns as the Word form, with no count/min/max variant columns. -/
theorem c6_amended_pdf_columns (g : ReportGenerator) (fs : FS)
    (figures : List (String × Fig)) (ts : String)
    (hok : ∀ nf ∈ figures, nf.2.serializeOk = true) :
    ((tablesOf (pdfStory (generate_pdf g fs figures ts).2.1)).get? 1).bind
        (fun t => t.get? 0) =
      some ["Platform", "Avg Order Value", "Avg Delivery Time", "Total Orders"] ∧
    ((tablesOf (wordBlocks (generate_word g fs figures ts).2.1)).get? 1).bind
        (fun t => t.get? 0) =
      some ["Platform", "Avg Order Value", "Avg Delivery Time", "Total Orders"] := by
  rw [generate_pdf_ok g fs figures ts hok, generate_word_ok g fs figures ts hok]
  exact ⟨platformHeader_pdf _, platformHeader_word _⟩

theorem c6_amended_witness :
    (∀ nf ∈ figsB, nf.2.serializeOk = true) ∧
    (((tablesOf (pdfStory (generate_pdf (mkReportGenerator dfA) [] figsB
          "20250101_120000").2.1)).get? 1).bind (fun t => t.get? 0) =
      some ["Platform", "Avg Order Value", "Avg Delivery Time", "Total Orders"] ∧
    ((tablesOf (wordBlocks (generate_word (mkReportGenerator dfA) [] figsB
          "20250101_120000").2.1)).get? 1).bind (fun t => t.get? 0) =
      some ["Platform", "Avg Order Value", "Avg Delivery Time", "Total Orders"]) :=
  ⟨by decide,
   c6_amended_pdf_columns (mkReportGenerator dfA) [] figsB "20250101_120000" (by decide)⟩

/-- C7 counterexample: generating with the two charts `a` and `b`, the
block preceding the first image is the shared section heading
"Visualizations" (not a title of chart `a`), and the block preceding the
second image is a spacer carrying no text at all — images are not
preceded by per-chart titles. -/
theorem c7_counterexample :
    imagesOf (pdfStory genB.2.1) = [FPath.temp "a.png", FPath.temp "b.png"] ∧
    (scanImages none (pdfStory genB.2.1)).map (fun t => t.1.bind blockText) =
      [some "Visualizations", none] ∧
    "Visualizations" ≠ "a" ∧ "Visualizations" ≠ "b" :=
  ⟨rfl, rfl, by decide, by decide⟩

/-- C7 amended: the Visualizations section has one image block per
supplied chart, in mapping order; each image is immediately followed by a
spacer (PDF) or an empty paragraph (Word); no per-chart title precedes an
image. -/
theorem c7_amended_images_order_no_titles (g : ReportGenerator) (fs : FS)
    (figures : List (String × Fig)) (ts : String)
    (hok : ∀ nf ∈ figures, nf.2.serializeOk = true) :
    (scanImages none (pdfStory (generate_pdf g fs figures ts).2.1)).map
        (fun t => t.2.1) = figurePaths figures ∧
    (scanImages none (pdfStory (generate_pdf g fs figures ts).2.1)).map
        (fun t => t.2.2) = List.replicate figures.length (some Block.spacer) ∧
    (scanImages none (wordBlocks (generate_word g fs figures ts).2.1)).map
        (fun t => t.2.1) = figurePaths figures ∧
    (scanImages none (wordBlocks (generate_word g fs figures ts).2.1)).map
        (fun t => t.2.2) = List.replicate figures.length (some (Block.paragraph "")) := by
  rw [generate_pdf_ok g fs figures ts hok, generate_word_ok g fs figures ts hok]
  have hlen : (figurePaths figures).length = figures.length := List.length_map _ _
  refine ⟨?_, ?_, ?_, ?_⟩
  · rw [scanImages_pdfStory, scanImages_visTail_mids _ Block.spacer _ rfl]
  · rw [scanImages_pdfStory, scanImages_visTail_nexts _ Block.spacer _ rfl]; rw [hlen]
  · rw [scanImages_wordBlocks, scanImages_visTail_mids _ (Block.paragraph "") _ rfl]
  · rw [scanImages_wordBlocks, scanImages_visTail_nexts _ (Block.paragraph "") _ rfl]; rw [hlen]

theorem c7_amended_witness :
    (∀ nf ∈ figsB, nf.2.serializeOk = true) ∧
    ((scanImages none (pdfStory (generate_pdf (mkReportGenerator dfA) [] figsB
          "20250101_120000").2.1)).map (fun t => t.2.1) = figurePaths figsB ∧
    (scanImages none (pdfStory (generate_pdf (mkReportGenerator dfA) [] figsB
          "20250101_120000").2.1)).map (fun t => t.2.2) =
      List.replicate figsB.length (some Block.spacer) ∧
    (scanImages none (wordBlocks (generate_word (mkReportGenerator dfA) [] figsB
          "20250101_120000").2.1)).map (fun t => t.2.1) = figurePaths figsB ∧
    (scanImages none (wordBlocks (generate_word (mkReportGenerator dfA) [] figsB
          "20250101_120000").2.1)).map (fun t => t.2.2) =
      List.replicate figsB.length (some (Block.paragraph ""))) :=
  ⟨by decide,
   c7_amended_images_order_no_titles (mkReportGenerator dfA) [] figsB "20250101_120000"
     (by decide)⟩

end ReportGen
